import Mathlib

/-!
Shallow embedding of the `clog` logging facade (src/logger.go).

Go pointer/heap semantics are made explicit: a `ProcState` carries a heap of
`FileRotationConfig` cells (the `*FileRotationConfig` pointers become `Option Nat`
addresses), a heap of atomic-level cells (`zap.AtomicLevel` values become `Nat`
addresses), the named-logger registry and the process-wide default logger.
Filesystem effects (`os.MkdirAll`) are modelled by an oracle `fs : String → Bool`
saying whether directory creation at a given path succeeds; `time.Now` and
`os.Getpid` are passed in as the `now`/`pid` parameters.
-/

namespace Clog

/-- zapcore.Level (the six levels the facade uses, plus DPanic which exists in
the external engine's enumeration). -/
inductive ZapLevel where
  | debug
  | info
  | warn
  | error
  | dpanic
  | panic
  | fatal
deriving DecidableEq, Repr

/-- zapcore.Level numeric values: Debug=-1, Info=0, Warn=1, Error=2, DPanic=3,
Panic=4, Fatal=5. -/
def ZapLevel.toInt : ZapLevel → Int
  | .debug => -1
  | .info => 0
  | .warn => 1
  | .error => 2
  | .dpanic => 3
  | .panic => 4
  | .fatal => 5

/-- core.Enabled: a record at level `lvl` passes the gate when the configured
threshold is at most `lvl`. -/
def zapEnabled (threshold lvl : ZapLevel) : Bool :=
  decide (threshold.toInt ≤ lvl.toInt)

-- 日志级别常量定义 (level name constants from src/logger.go)
def DebugLevel : String := "debug"
def InfoLevel : String := "info"
def WarnLevel : String := "warn"
def ErrorLevel : String := "error"
def PanicLevel : String := "panic"
def FatalLevel : String := "fatal"

-- 日志输出格式定义
def FormatJSON : String := "json"
def FormatConsole : String := "console"

-- 运行环境类型定义
def EnvDevelopment : String := "development"
def EnvProduction : String := "production"
def EnvTest : String := "test"

/-- strings.ToLower, char-wise (ASCII case mapping, which covers the six
canonical level names). -/
def strToLower (s : String) : String :=
  String.mk (s.data.map Char.toLower)

/-- parseLevel (src/logger.go:344-361): switch strings.ToLower(level). -/
def parseLevel (level : String) : ZapLevel :=
  let l := strToLower level
  if l = DebugLevel then ZapLevel.debug
  else if l = InfoLevel then ZapLevel.info
  else if l = WarnLevel then ZapLevel.warn
  else if l = ErrorLevel then ZapLevel.error
  else if l = PanicLevel then ZapLevel.panic
  else if l = FatalLevel then ZapLevel.fatal
  else ZapLevel.info

/-- FileRotationConfig (src/logger.go:69-74). Go `int` modelled as `Int`. -/
structure FileRotationConfig where
  MaxSize : Int
  MaxBackups : Int
  MaxAge : Int
  Compress : Bool
deriving DecidableEq, Repr

/-- Config (src/logger.go:54-66). The `FileRotation *FileRotationConfig` pointer
is an optional heap address. -/
structure Config where
  Level : String
  Format : String
  Filename : String
  Name : String
  ConsoleOutput : Bool
  EnableCaller : Bool
  EnableColor : Bool
  FileRotation : Option Nat
  Environment : String
  UseTimeStampFilename : Bool
  UsePidFilename : Bool
deriving DecidableEq, Repr

/-- zapcore level-encoder choices used by the facade. -/
inductive LevelEncoding where
  | lowercase
  | capital
  | capitalColor
deriving DecidableEq, Repr

/-- zapcore.EncoderConfig restricted to the fields the facade sets.
`timeFormat` stands for the custom EncodeTime closure's layout string. -/
structure EncoderConfig where
  timeKey : String
  levelKey : String
  callerKey : String
  messageKey : String
  stacktraceKey : String
  encodeLevel : LevelEncoding
  timeFormat : String
deriving DecidableEq, Repr

/-- zapcore.Encoder: JSON or console encoder built from an encoder config. -/
inductive Encoder where
  | jsonEnc (cfg : EncoderConfig)
  | consoleEnc (cfg : EncoderConfig)
deriving DecidableEq, Repr

/-- Observer: which level encoding an encoder carries. -/
def Encoder.levelEncoding : Encoder → LevelEncoding
  | .jsonEnc c => c.encodeLevel
  | .consoleEnc c => c.encodeLevel

/-- lumberjack.Logger as configured by createLogWriter (src/logger.go:296-302):
the numeric fields are copied out of the rotation cell at construction time. -/
structure Rotator where
  filename : String
  maxSize : Int
  maxBackups : Int
  maxAge : Int
  compress : Bool
deriving DecidableEq, Repr

/-- Typed payload of a zap.Field. -/
inductive FieldValue where
  | strV (s : String)
  | intV (i : Int)
  | boolV (b : Bool)
  | anyV (s : String)
deriving DecidableEq, Repr

/-- zap.Field: an opaque (key, typed value) pair. -/
structure Field where
  key : String
  value : FieldValue
deriving DecidableEq, Repr

/-- Logger (src/logger.go:77-83). `atomicLevel` is the address of the shared
level cell; `fields` is the context bound into the zap logger by `With`;
`name` is the zap `Named` tag; the encoders/rotator record the core wiring
built by NewLogger; `callerSkip` is `some 2` when call-site capture is on. -/
structure Logger where
  config : Config
  atomicLevel : Nat
  fields : List Field
  name : String
  fileEncoder : Encoder
  consoleEncoder : Option Encoder
  rotator : Rotator
  callerSkip : Option Nat
deriving DecidableEq, Repr

/-- Process-wide state: the global environment tag, the two heaps, the
named-logger registry (`loggers`) and the default-logger pointer. -/
structure ProcState where
  currentEnv : String
  rotCells : Nat → FileRotationConfig
  rotNext : Nat
  lvlCells : Nat → ZapLevel
  lvlNext : Nat
  loggers : List (String × Logger)
  defaultLogger : Option Logger

/-- Allocate a fresh rotation cell (a Go `&FileRotationConfig{...}`). -/
def ProcState.allocRot (st : ProcState) (c : FileRotationConfig) : ProcState :=
  { st with
    rotCells := fun n => if n = st.rotNext then c else st.rotCells n,
    rotNext := st.rotNext + 1 }

/-- Write through a rotation pointer. -/
def ProcState.setRot (st : ProcState) (addr : Nat) (c : FileRotationConfig) : ProcState :=
  { st with rotCells := fun n => if n = addr then c else st.rotCells n }

/-- Allocate a fresh atomic level cell (zap.NewAtomicLevel + SetLevel). -/
def ProcState.allocLvl (st : ProcState) (v : ZapLevel) : ProcState :=
  { st with
    lvlCells := fun n => if n = st.lvlNext then v else st.lvlCells n,
    lvlNext := st.lvlNext + 1 }

/-- Store into an atomic level cell (AtomicLevel.SetLevel). -/
def ProcState.setLvl (st : ProcState) (addr : Nat) (v : ZapLevel) : ProcState :=
  { st with lvlCells := fun n => if n = addr then v else st.lvlCells n }

/-- Registry lookup (Go map read `loggers[name]`). -/
def mapLookup : List (String × Logger) → String → Option Logger
  | [], _ => none
  | (k, v) :: rest, key => if k = key then some v else mapLookup rest key

/-- Registry insert (Go map write `loggers[name] = logger`). -/
def mapInsert : List (String × Logger) → String → Logger → List (String × Logger)
  | [], key, v => [(key, v)]
  | (k, v') :: rest, key, v =>
    if k = key then (key, v) :: rest else (k, v') :: mapInsert rest key v

/-- The rotation-cell contents DefaultConfig allocates (src/logger.go:114-119). -/
def defaultRotation : FileRotationConfig :=
  { MaxSize := 100, MaxBackups := 10, MaxAge := 7, Compress := false }

/-- DefaultConfig (src/logger.go:102-121). Each Go call allocates a fresh
rotation struct, so this threads the state. -/
def DefaultConfig (st : ProcState) : Config × ProcState :=
  ({ Level := InfoLevel
     Format := FormatConsole
     Filename := "./logs/app.log"
     Name := "default"
     ConsoleOutput := false
     EnableCaller := true
     EnableColor := true
     FileRotation := some st.rotNext
     Environment := st.currentEnv
     UseTimeStampFilename := false
     UsePidFilename := false }, st.allocRot defaultRotation)

/-- fillDefaultConfig (src/logger.go:216-252). Zero-valued string fields get
the documented defaults; a nil rotation pointer gets DefaultConfig's fresh
cell; a non-nil one has its non-positive numeric fields overwritten in place
through the pointer. -/
def fillDefaultConfig (config : Config) (st : ProcState) : Config × ProcState :=
  let d := DefaultConfig st
  let defaultCfg := d.1
  let st1 := d.2
  let config1 : Config :=
    { config with
      Level := if config.Level = "" then defaultCfg.Level else config.Level
      Format := if config.Format = "" then defaultCfg.Format else config.Format
      Filename := if config.Filename = "" then defaultCfg.Filename else config.Filename
      Name := if config.Name = "" then defaultCfg.Name else config.Name
      Environment := if config.Environment = "" then defaultCfg.Environment else config.Environment }
  match config.FileRotation with
  | none => ({ config1 with FileRotation := defaultCfg.FileRotation }, st1)
  | some addr =>
    let cell := st1.rotCells addr
    let dcell := st1.rotCells (defaultCfg.FileRotation.getD 0)
    let newCell : FileRotationConfig :=
      { MaxSize := if cell.MaxSize ≤ 0 then dcell.MaxSize else cell.MaxSize
        MaxAge := if cell.MaxAge ≤ 0 then dcell.MaxAge else cell.MaxAge
        MaxBackups := if cell.MaxBackups ≤ 0 then dcell.MaxBackups else cell.MaxBackups
        Compress := cell.Compress }
    (config1, st1.setRot addr newCell)

/-- Backtracking scan used by path cleaning for a `..` element: starting from
write position `w`, step back while `w > dotdot` and the character at `w` is
not a separator (mirrors the inner loop of Go's path.Clean). -/
def backScan (out : List Char) (dotdot : Nat) : Nat → Nat
  | 0 => 0
  | Nat.succ w' =>
    if Nat.succ w' > dotdot ∧ out.getD (Nat.succ w') ' ' ≠ '/' then backScan out dotdot w'
    else Nat.succ w'

/-- Remove the last path element from the output buffer (Go path.Clean's
`out.w--; for out.w > dotdot && out.index(out.w) != '/' { out.w-- }`). -/
def backtrack (out : List Char) (dotdot : Nat) : List Char :=
  out.take (backScan out dotdot (out.length - 1))

/-- Main loop of Go's `filepath.Clean` (unix), fuel-indexed so it computes by
structural recursion; `pathClean` supplies fuel equal to the input length,
which is enough because every step consumes at least one character. -/
def cleanLoop (rooted : Bool) : Nat → List Char → List Char → Nat → List Char
  | 0, _, out, _ => out
  | _ + 1, [], out, _ => out
  | fuel + 1, c :: rs, out, dotdot =>
    if c = '/' then
      cleanLoop rooted fuel rs out dotdot
    else if c = '.' ∧ (rs = [] ∨ rs.head? = some '/') then
      cleanLoop rooted fuel rs out dotdot
    else if c = '.' ∧ rs.head? = some '.' ∧ (rs.tail = [] ∨ rs.tail.head? = some '/') then
      if out.length > dotdot then
        cleanLoop rooted fuel rs.tail (backtrack out dotdot) dotdot
      else if rooted = false then
        let out1 := if out.length > 0 then out ++ ['/'] else out
        let out2 := out1 ++ ['.', '.']
        cleanLoop rooted fuel rs.tail out2 out2.length
      else
        cleanLoop rooted fuel rs.tail out dotdot
    else
      let elem := (c :: rs).takeWhile (fun x => x ≠ '/')
      let rest := (c :: rs).dropWhile (fun x => x ≠ '/')
      let out1 :=
        if (rooted = true ∧ out.length ≠ 1) ∨ (rooted = false ∧ out.length ≠ 0) then
          out ++ ['/']
        else out
      cleanLoop rooted fuel rest (out1 ++ elem) dotdot

/-- Go `filepath.Clean` on unix paths. -/
def pathClean (path : String) : String :=
  if path = "" then "."
  else
    let cs := path.data
    let rooted := cs.head? = some '/'
    let out0 : List Char := if rooted then ['/'] else []
    let dd0 : Nat := if rooted then 1 else 0
    let res := cleanLoop rooted cs.length cs out0 dd0
    if res = [] then "." else String.mk res

/-- Go `filepath.Join` restricted to two elements: skip empty elements, join
with the separator, then Clean. -/
def filepathJoin (a b : String) : String :=
  if a = "" then (if b = "" then "" else pathClean b)
  else pathClean (a ++ "/" ++ b)

/-- Go `filepath.Dir`: everything up to and including the final separator,
then Clean (Clean of the empty string is "."). -/
def filepathDir (path : String) : String :=
  pathClean (String.mk ((path.data.reverse.dropWhile (fun c => c ≠ '/')).reverse))

/-- Reversed-suffix scan for `filepath.Ext`: walking the reversed path,
collect characters until the first dot (the extension), stopping at a
separator. `acc` holds the characters already passed, in original order. -/
def extScan : List Char → List Char → List Char
  | _, [] => []
  | acc, c :: rs =>
    if c = '/' then []
    else if c = '.' then c :: acc
    else extScan (c :: acc) rs

/-- Go `filepath.Ext`: the suffix starting at the final dot in the final
path element, empty if there is none. -/
def filepathExt (path : String) : String :=
  String.mk (extScan [] path.data.reverse)

/-- Go `filepath.Base`: strip trailing separators, then take the last
element; empty path gives ".", all-separator path gives "/". -/
def filepathBase (path : String) : String :=
  if path = "" then "."
  else
    let stripped := path.data.reverse.dropWhile (fun c => c = '/')
    let base := stripped.takeWhile (fun c => c ≠ '/')
    if base = [] then "/" else String.mk base.reverse

/-- Go `strings.TrimSuffix`: drop the suffix when present, char-wise. -/
def trimSuffix (s suffix : String) : String :=
  if suffix.data.isSuffixOf s.data then
    String.mk (s.data.take (s.data.length - suffix.data.length))
  else s

/-- getLogFilename (src/logger.go:364-392): outside the development
environment, or with no decoration flag set, the configured filename is used
unchanged; otherwise a timestamp and/or pid suffix is spliced in before the
extension. `now` and `pid` stand for time.Now's formatted value and
os.Getpid(). -/
def getLogFilename (config : Config) (now : String) (pid : Nat) : String :=
  if config.Environment ≠ EnvDevelopment ∨
      (config.UseTimeStampFilename = false ∧ config.UsePidFilename = false) then
    config.Filename
  else
    let dir := filepathDir config.Filename
    let ext := filepathExt config.Filename
    let base := filepathBase config.Filename
    let name := trimSuffix base ext
    let fname := if config.UseTimeStampFilename then name ++ "_" ++ now else name
    let fname2 := if config.UsePidFilename then fname ++ "_pid" ++ toString pid else fname
    filepathJoin dir (fname2 ++ ext)

/-- createEncoderConfig (src/logger.go:255-284): lowercase levels by default;
console format upgrades to capital (colored when EnableColor); the custom
time closure always replaces EncodeTime last. -/
def createEncoderConfig (config : Config) : EncoderConfig :=
  let ec : EncoderConfig :=
    { timeKey := "time", levelKey := "level", callerKey := "caller",
      messageKey := "msg", stacktraceKey := "stacktrace",
      encodeLevel := LevelEncoding.lowercase, timeFormat := "ISO8601" }
  let ec1 :=
    if config.Format = FormatConsole then
      if config.EnableColor then { ec with encodeLevel := LevelEncoding.capitalColor }
      else { ec with encodeLevel := LevelEncoding.capital }
    else ec
  { ec1 with timeFormat := "2006-01-02 15:04:05.000" }

/-- createEncoder (src/logger.go:310-315). -/
def createEncoder (config : Config) (encoderConfig : EncoderConfig) : Encoder :=
  if config.Format = FormatJSON then Encoder.jsonEnc encoderConfig
  else Encoder.consoleEnc encoderConfig

/-- createLogWriter (src/logger.go:288-307): MkdirAll on the parent directory
(failure is the only error), then a lumberjack rotator copying the rotation
cell's numeric fields. `fs dir = false` models an os.MkdirAll failure. -/
def createLogWriter (filename : String) (config : Config) (st : ProcState)
    (fs : String → Bool) : Except String Rotator :=
  let dir := filepathDir filename
  if fs dir = false then Except.error "创建日志目录失败"
  else
    let cell := st.rotCells (config.FileRotation.getD 0)
    Except.ok
      { filename := filename, maxSize := cell.MaxSize, maxBackups := cell.MaxBackups,
        maxAge := cell.MaxAge, compress := cell.Compress }

/-- registerLogger (src/logger.go:335-341): record the logger under its name
unless the name is empty or the reserved "default". -/
def registerLogger (logger : Logger) (name : String) (st : ProcState) : ProcState :=
  if name ≠ "" ∧ name ≠ "default" then
    { st with loggers := mapInsert st.loggers name logger }
  else st

/-- NewLogger (src/logger.go:152-213). Fill defaults, allocate the atomic
level cell, build encoder configs (file destination forced non-colored when
the format is console), create the writer (the only error source), wire the
cores and register the result. The state is returned on both branches since
the heap effects of fillDefaultConfig survive an error return in Go. -/
def NewLogger (config : Config) (st : ProcState) (fs : String → Bool)
    (now : String) (pid : Nat) : Except String Logger × ProcState :=
  let fill := fillDefaultConfig config st
  let cfg := fill.1
  let st1 := fill.2
  let lvlAddr := st1.lvlNext
  let st2 := st1.allocLvl (parseLevel cfg.Level)
  let encoderConfig := createEncoderConfig cfg
  let finalFilename := getLogFilename cfg now pid
  match createLogWriter finalFilename cfg st2 fs with
  | Except.error e => (Except.error e, st2)
  | Except.ok rotator =>
    let fileEncoderConfig :=
      if cfg.Format = FormatConsole then
        { encoderConfig with encodeLevel := LevelEncoding.capital }
      else encoderConfig
    let fileEncoder := createEncoder cfg fileEncoderConfig
    let consoleEncoder :=
      if cfg.ConsoleOutput then some (createEncoder cfg encoderConfig) else none
    let logger : Logger :=
      { config := cfg, atomicLevel := lvlAddr, fields := [], name := cfg.Name,
        fileEncoder := fileEncoder, consoleEncoder := consoleEncoder,
        rotator := rotator,
        callerSkip := if cfg.EnableCaller then some 2 else none }
    (Except.ok logger, registerLogger logger cfg.Name st2)

/-- Init (src/logger.go:135-148): build the default logger, store it in the
default pointer and under "default" in the registry. The error, if any, is
returned as `some e`. -/
def Init (config : Config) (st : ProcState) (fs : String → Bool)
    (now : String) (pid : Nat) : Option String × ProcState :=
  match NewLogger config st fs now pid with
  | (Except.error e, st1) => (some e, st1)
  | (Except.ok logger, st1) =>
    (none, { st1 with
             defaultLogger := some logger,
             loggers := mapInsert st1.loggers "default" logger })

/-- The configuration Module (src/logger.go:409-449) prepares before calling
NewLogger: explicit config or DefaultConfig, name forced to the module name,
filename rewritten to filepath.Join("./logs", name+".log") when unset or
equal to DefaultConfig().Filename (the comparison itself calls DefaultConfig,
allocating, only when the filename is non-empty, mirroring Go's
short-circuit). -/
def modulePrep (moduleName : String) (config : Option Config) (st : ProcState) :
    Config × ProcState :=
  let choice := match config with
    | some c => (c, st)
    | none => DefaultConfig st
  let cfg := { choice.1 with Name := moduleName }
  let st1 := choice.2
  if cfg.Filename = "" then
    ({ cfg with Filename := filepathJoin "./logs" (moduleName ++ ".log") }, st1)
  else
    let d := DefaultConfig st1
    if cfg.Filename = d.1.Filename then
      ({ cfg with Filename := filepathJoin "./logs" (moduleName ++ ".log") }, d.2)
    else (cfg, d.2)

/-- Module (src/logger.go:409-449): get-or-create on the registry; on
construction failure fall back to the current default logger (which is nil,
i.e. `none`, when Init has not run), after best-effort logging of the
failure (an emission, not a state change here). -/
def Module (moduleName : String) (config : Option Config) (st : ProcState)
    (fs : String → Bool) (now : String) (pid : Nat) : Option Logger × ProcState :=
  match mapLookup st.loggers moduleName with
  | some logger => (some logger, st)
  | none =>
    let prep := modulePrep moduleName config st
    match NewLogger prep.1 prep.2 fs now pid with
    | (Except.ok logger, st2) => (some logger, st2)
    | (Except.error _, st2) => (st2.defaultLogger, st2)

/-- GetLogger (src/logger.go:396-405). -/
def GetLogger (name : String) (st : ProcState) : Option Logger :=
  match mapLookup st.loggers name with
  | some logger => some logger
  | none => st.defaultLogger

/-- Logger.SetLevel (src/logger.go:456-458): store through the shared atomic
level cell. -/
def Logger.SetLevel (l : Logger) (level : String) (st : ProcState) : ProcState :=
  st.setLvl l.atomicLevel (parseLevel level)

/-- Logger.With (src/logger.go:461-470): new Logger sharing config, atomic
level cell and rotator, with the fields bound into the zap logger. -/
def Logger.With (l : Logger) (fields : List Field) : Logger :=
  { l with fields := l.fields ++ fields }

/-- Logger.WithFields (src/logger.go:473-479): zap.Any over the map entries,
then With. The list order stands in for Go's unspecified map order. -/
def Logger.WithFields (l : Logger) (m : List (String × FieldValue)) : Logger :=
  l.With (m.map fun kv => { key := kv.1, value := kv.2 })

/-- One record as handed to the external engine's core. -/
structure Record where
  name : String
  level : ZapLevel
  msg : String
  fields : List Field
deriving DecidableEq, Repr

/-- The engine's leveled write: emit one record when the shared level cell
enables the record's level, else nothing. -/
def Logger.log (l : Logger) (st : ProcState) (lvl : ZapLevel) (msg : String)
    (fields : List Field) : List Record :=
  if zapEnabled (st.lvlCells l.atomicLevel) lvl then
    [{ name := l.name, level := lvl, msg := msg, fields := l.fields ++ fields }]
  else []

/-- Logger.Debug (src/logger.go:482-484). -/
def Logger.Debug (l : Logger) (st : ProcState) (msg : String) (fields : List Field) :
    List Record := l.log st ZapLevel.debug msg fields

/-- Logger.Info (src/logger.go:487-489). -/
def Logger.Info (l : Logger) (st : ProcState) (msg : String) (fields : List Field) :
    List Record := l.log st ZapLevel.info msg fields

/-- Logger.Warn (src/logger.go:492-494). -/
def Logger.Warn (l : Logger) (st : ProcState) (msg : String) (fields : List Field) :
    List Record := l.log st ZapLevel.warn msg fields

/-- Logger.Error (src/logger.go:497-499). -/
def Logger.Error (l : Logger) (st : ProcState) (msg : String) (fields : List Field) :
    List Record := l.log st ZapLevel.error msg fields

/-- Logger.Panic (src/logger.go:502-504): emit then abort (the Bool flags the
abort the engine raises unconditionally). -/
def Logger.Panic (l : Logger) (st : ProcState) (msg : String) (fields : List Field) :
    List Record × Bool := (l.log st ZapLevel.panic msg fields, true)

/-- Logger.Fatal (src/logger.go:507-509): emit then terminate the process. -/
def Logger.Fatal (l : Logger) (st : ProcState) (msg : String) (fields : List Field) :
    List Record × Bool := (l.log st ZapLevel.fatal msg fields, true)

/-- Logger.Debugf (src/logger.go:512-514); `fmtF` is fmt.Sprintf. -/
def Logger.Debugf (l : Logger) (st : ProcState) (fmtF : String → List String → String)
    (format : String) (args : List String) : List Record :=
  l.log st ZapLevel.debug (fmtF format args) []

/-- Logger.Infof (src/logger.go:517-519). -/
def Logger.Infof (l : Logger) (st : ProcState) (fmtF : String → List String → String)
    (format : String) (args : List String) : List Record :=
  l.log st ZapLevel.info (fmtF format args) []

/-- Logger.Warnf (src/logger.go:522-524). -/
def Logger.Warnf (l : Logger) (st : ProcState) (fmtF : String → List String → String)
    (format : String) (args : List String) : List Record :=
  l.log st ZapLevel.warn (fmtF format args) []

/-- Logger.Errorf (src/logger.go:527-529). -/
def Logger.Errorf (l : Logger) (st : ProcState) (fmtF : String → List String → String)
    (format : String) (args : List String) : List Record :=
  l.log st ZapLevel.error (fmtF format args) []

/-- Logger.Panicf (src/logger.go:532-534). -/
def Logger.Panicf (l : Logger) (st : ProcState) (fmtF : String → List String → String)
    (format : String) (args : List String) : List Record × Bool :=
  (l.log st ZapLevel.panic (fmtF format args) [], true)

/-- Logger.Fatalf (src/logger.go:537-539). -/
def Logger.Fatalf (l : Logger) (st : ProcState) (fmtF : String → List String → String)
    (format : String) (args : List String) : List Record × Bool :=
  (l.log st ZapLevel.fatal (fmtF format args) [], true)

/-- Logger.Sync (src/logger.go:542-544): delegates to the engine; `engineErr`
is the engine's flush outcome for this logger. -/
def Logger.Sync (l : Logger) (engineErr : Logger → Option String) : Option String :=
  engineErr l

/-- Package-level SetDefaultLevel (src/logger.go:566-570). -/
def SetDefaultLevel (st : ProcState) (level : String) : ProcState :=
  match st.defaultLogger with
  | some l => l.SetLevel level st
  | none => st

/-- Package-level Debug (src/logger.go:573-577). -/
def Debug (st : ProcState) (msg : String) (fields : List Field) : List Record :=
  match st.defaultLogger with
  | some l => l.Debug st msg fields
  | none => []

/-- Package-level Info (src/logger.go:580-584). -/
def Info (st : ProcState) (msg : String) (fields : List Field) : List Record :=
  match st.defaultLogger with
  | some l => l.Info st msg fields
  | none => []

/-- Package-level Warn (src/logger.go:587-591). -/
def Warn (st : ProcState) (msg : String) (fields : List Field) : List Record :=
  match st.defaultLogger with
  | some l => l.Warn st msg fields
  | none => []

/-- Package-level Error (src/logger.go:594-598). -/
def Error (st : ProcState) (msg : String) (fields : List Field) : List Record :=
  match st.defaultLogger with
  | some l => l.Error st msg fields
  | none => []

/-- Package-level Panic (src/logger.go:601-605): nothing happens (no abort)
when no default logger exists. -/
def Panic (st : ProcState) (msg : String) (fields : List Field) : List Record × Bool :=
  match st.defaultLogger with
  | some l => l.Panic st msg fields
  | none => ([], false)

/-- Package-level Fatal (src/logger.go:608-612). -/
def Fatal (st : ProcState) (msg : String) (fields : List Field) : List Record × Bool :=
  match st.defaultLogger with
  | some l => l.Fatal st msg fields
  | none => ([], false)

/-- Package-level Debugf (src/logger.go:615-619). -/
def Debugf (st : ProcState) (fmtF : String → List String → String)
    (format : String) (args : List String) : List Record :=
  match st.defaultLogger with
  | some l => l.Debugf st fmtF format args
  | none => []

/-- Package-level Infof (src/logger.go:622-626). -/
def Infof (st : ProcState) (fmtF : String → List String → String)
    (format : String) (args : List String) : List Record :=
  match st.defaultLogger with
  | some l => l.Infof st fmtF format args
  | none => []

/-- Package-level Warnf (src/logger.go:629-633). -/
def Warnf (st : ProcState) (fmtF : String → List String → String)
    (format : String) (args : List String) : List Record :=
  match st.defaultLogger with
  | some l => l.Warnf st fmtF format args
  | none => []

/-- Package-level Errorf (src/logger.go:636-640). -/
def Errorf (st : ProcState) (fmtF : String → List String → String)
    (format : String) (args : List String) : List Record :=
  match st.defaultLogger with
  | some l => l.Errorf st fmtF format args
  | none => []

/-- Package-level Panicf (src/logger.go:643-647). -/
def Panicf (st : ProcState) (fmtF : String → List String → String)
    (format : String) (args : List String) : List Record × Bool :=
  match st.defaultLogger with
  | some l => l.Panicf st fmtF format args
  | none => ([], false)

/-- Package-level Fatalf (src/logger.go:650-654). -/
def Fatalf (st : ProcState) (fmtF : String → List String → String)
    (format : String) (args : List String) : List Record × Bool :=
  match st.defaultLogger with
  | some l => l.Fatalf st fmtF format args
  | none => ([], false)

/-- Package-level With (src/logger.go:657-662): nil (`none`) before Init. -/
def With (st : ProcState) (fields : List Field) : Option Logger :=
  match st.defaultLogger with
  | some l => some (l.With fields)
  | none => none

/-- Package-level WithFields (src/logger.go:665-670). -/
def WithFields (st : ProcState) (m : List (String × FieldValue)) : Option Logger :=
  match st.defaultLogger with
  | some l => some (l.WithFields m)
  | none => none

/-- Package-level Sync (src/logger.go:673-678): nil error before Init. -/
def Sync (st : ProcState) (engineErr : Logger → Option String) : Option String :=
  match st.defaultLogger with
  | some l => l.Sync engineErr
  | none => none

/-- The effective level a logger observes: the contents of its shared atomic
level cell. -/
def effectiveLevel (l : Logger) (st : ProcState) : ZapLevel :=
  st.lvlCells l.atomicLevel

/-- Process start state: empty registry, no default logger, environment
"development" (the package initializer `currentEnv = EnvDevelopment`); the
heap functions start at arbitrary constant contents. -/
def initState : ProcState :=
  { currentEnv := EnvDevelopment
    rotCells := fun _ => defaultRotation
    rotNext := 0
    lvlCells := fun _ => ZapLevel.info
    lvlNext := 0
    loggers := []
    defaultLogger := none }

/-- Filesystem oracle on which every MkdirAll succeeds. -/
def fsAllOk : String → Bool := fun _ => true

/-- Filesystem oracle on which every MkdirAll fails. -/
def fsAllFail : String → Bool := fun _ => false

/-- A zero-valued input configuration except for a json format and a fixed
filename, pointing at rotation cell 0 (used to instantiate C2). -/
def cfgRotPartial : Config :=
  { Level := "", Format := "json", Filename := "/var/log/x.log", Name := "svc",
    ConsoleOutput := false, EnableCaller := false, EnableColor := false,
    FileRotation := some 0, Environment := "production",
    UseTimeStampFilename := false, UsePidFilename := false }

/-- A state whose rotation heap holds one caller-allocated cell with some
non-positive fields. -/
def stRotPartial : ProcState :=
  { initState with
    rotCells := fun _ => { MaxSize := 5, MaxBackups := 0, MaxAge := -2, Compress := true },
    rotNext := 1 }

/-- A throwaway Logger value used only as an Option/Except default in the
concrete instantiations below. -/
def dummyLogger : Logger :=
  { config := cfgRotPartial, atomicLevel := 0, fields := [], name := "",
    fileEncoder := Encoder.jsonEnc
      { timeKey := "", levelKey := "", callerKey := "", messageKey := "",
        stacktraceKey := "", encodeLevel := LevelEncoding.lowercase, timeFormat := "" },
    consoleEncoder := none,
    rotator := { filename := "", maxSize := 0, maxBackups := 0, maxAge := 0, compress := false },
    callerSkip := none }

/-- A console-format, color-enabled, console-mirroring configuration. -/
def cfgConsoleColor : Config :=
  { Level := "debug", Format := "console", Filename := "x.log", Name := "svc2",
    ConsoleOutput := true, EnableCaller := false, EnableColor := true,
    FileRotation := none, Environment := "test",
    UseTimeStampFilename := false, UsePidFilename := false }

/-- The logger built from `cfgConsoleColor` on the start state. -/
def c3Logger : Logger :=
  match (NewLogger cfgConsoleColor initState fsAllOk "t" 1).1 with
  | Except.ok l => l
  | Except.error _ => dummyLogger

/-- The state after building `c3Logger`. -/
def c3St : ProcState := (NewLogger cfgConsoleColor initState fsAllOk "t" 1).2

/-- A configuration pointing at rotation cell 0 whose cell holds
non-positive MaxSize/MaxBackups. -/
def cfgRotNeg : Config :=
  { Level := "warn", Format := "json", Filename := "y.log", Name := "svc3",
    ConsoleOutput := false, EnableCaller := true, EnableColor := false,
    FileRotation := some 0, Environment := "production",
    UseTimeStampFilename := false, UsePidFilename := false }

/-- A state whose rotation cell 0 holds MaxSize=-1, MaxBackups=0, MaxAge=3. -/
def stRotNeg : ProcState :=
  { initState with
    rotCells := fun _ => { MaxSize := -1, MaxBackups := 0, MaxAge := 3, Compress := true },
    rotNext := 1 }

/-- The logger the first `Module "auth"` call constructs on the start state. -/
def c7Logger : Logger :=
  ((Module "auth" none initState fsAllOk "t" 1).1).getD dummyLogger

/-- The state after that first `Module "auth"` call. -/
def c7St : ProcState := (Module "auth" none initState fsAllOk "t" 1).2

/-- A state in which Init has notionally run (a default logger exists). -/
def stWithDefault : ProcState := { initState with defaultLogger := some dummyLogger }

/-- A module configuration explicitly requesting the package default path. -/
def cfgModDb : Config :=
  { Level := "info", Format := "json", Filename := "./logs/app.log", Name := "ignored",
    ConsoleOutput := false, EnableCaller := true, EnableColor := false,
    FileRotation := none, Environment := "production",
    UseTimeStampFilename := false, UsePidFilename := false }

/-- The logger `Module "db"` constructs from `cfgModDb` on the start state. -/
def c10Logger : Logger :=
  ((Module "db" (some cfgModDb) initState fsAllOk "t" 1).1).getD dummyLogger

/-- The state after that `Module "db"` call. -/
def c10St : ProcState := (Module "db" (some cfgModDb) initState fsAllOk "t" 1).2

end Clog

namespace Clog

theorem strdata_append (a b : String) : (a ++ b).data = a.data ++ b.data := rfl

theorem mapLookup_mapInsert_self (m : List (String × Logger)) (k : String) (v : Logger) :
    mapLookup (mapInsert m k v) k = some v := by
  induction m with
  | nil => simp [mapInsert, mapLookup]
  | cons kv rest ih =>
    by_cases h : kv.1 = k
    · simp [mapInsert, mapLookup, h]
    · simpa [mapInsert, mapLookup, h] using ih

theorem fill_fst (config : Config) (st : ProcState) :
    (fillDefaultConfig config st).1 =
      { config with
        Level := if config.Level = "" then InfoLevel else config.Level
        Format := if config.Format = "" then FormatConsole else config.Format
        Filename := if config.Filename = "" then "./logs/app.log" else config.Filename
        Name := if config.Name = "" then "default" else config.Name
        Environment := if config.Environment = "" then st.currentEnv else config.Environment
        FileRotation := some (config.FileRotation.getD st.rotNext) } := by
  cases h : config.FileRotation <;>
    simp [fillDefaultConfig, DefaultConfig, h]

theorem fill_snd_none (config : Config) (st : ProcState)
    (h : config.FileRotation = none) :
    (fillDefaultConfig config st).2 = st.allocRot defaultRotation := by
  simp [fillDefaultConfig, DefaultConfig, h]

theorem fill_snd_some (config : Config) (st : ProcState) (addr : Nat)
    (h : config.FileRotation = some addr) (hv : addr < st.rotNext) :
    (fillDefaultConfig config st).2 =
      (st.allocRot defaultRotation).setRot addr
        { MaxSize := if (st.rotCells addr).MaxSize ≤ 0 then 100 else (st.rotCells addr).MaxSize
          MaxAge := if (st.rotCells addr).MaxAge ≤ 0 then 7 else (st.rotCells addr).MaxAge
          MaxBackups :=
            if (st.rotCells addr).MaxBackups ≤ 0 then 10 else (st.rotCells addr).MaxBackups
          Compress := (st.rotCells addr).Compress } := by
  have hne : addr ≠ st.rotNext := Nat.ne_of_lt hv
  simp [fillDefaultConfig, DefaultConfig, h, ProcState.allocRot, defaultRotation, hne]

theorem setRot_read_self (st : ProcState) (addr : Nat) (c : FileRotationConfig) :
    (st.setRot addr c).rotCells addr = c := by
  simp [ProcState.setRot]

theorem fill_rotCells_some (config : Config) (st : ProcState) (addr : Nat)
    (h : config.FileRotation = some addr) (hv : addr < st.rotNext) :
    (fillDefaultConfig config st).2.rotCells addr =
      { MaxSize := if (st.rotCells addr).MaxSize ≤ 0 then 100 else (st.rotCells addr).MaxSize
        MaxAge := if (st.rotCells addr).MaxAge ≤ 0 then 7 else (st.rotCells addr).MaxAge
        MaxBackups :=
          if (st.rotCells addr).MaxBackups ≤ 0 then 10 else (st.rotCells addr).MaxBackups
        Compress := (st.rotCells addr).Compress } := by
  rw [fill_snd_some config st addr h hv, setRot_read_self]

theorem cleanLoop_nil (rooted : Bool) (fuel : Nat) (out : List Char) (dd : Nat) :
    cleanLoop rooted fuel [] out dd = out := by
  cases fuel <;> rfl

theorem cleanLoop_slash (rooted : Bool) (fuel : Nat) (rs out : List Char) (dd : Nat) :
    cleanLoop rooted (fuel + 1) ('/' :: rs) out dd = cleanLoop rooted fuel rs out dd := by
  simp [cleanLoop]

theorem cleanLoop_dotslash (rooted : Bool) (fuel : Nat) (rs out : List Char) (dd : Nat) :
    cleanLoop rooted (fuel + 1) ('.' :: '/' :: rs) out dd =
      cleanLoop rooted fuel ('/' :: rs) out dd := by
  simp [cleanLoop]

theorem cleanLoop_elem (rooted : Bool) (fuel : Nat) (e rest out : List Char) (dd : Nat)
    (he : e ≠ []) (hns : ∀ c ∈ e, c ≠ '/')
    (h1 : e ≠ ['.']) (h2 : e ≠ ['.', '.'])
    (hrest : rest = [] ∨ ∃ rs, rest = '/' :: rs) :
    cleanLoop rooted (fuel + 1) (e ++ rest) out dd =
      cleanLoop rooted fuel rest
        ((if (rooted = true ∧ out.length ≠ 1) ∨ (rooted = false ∧ out.length ≠ 0)
          then out ++ ['/'] else out) ++ e) dd := by
  obtain ⟨c, e', rfl⟩ : ∃ c e', e = c :: e' := by
    cases e with
    | nil => exact absurd rfl he
    | cons c e' => exact ⟨c, e', rfl⟩
  have hc : ¬(c = '/') := hns c (by simp)
  have hcond2 : ¬(c = '.' ∧ (e' ++ rest = [] ∨ (e' ++ rest).head? = some '/')) := by
    rintro ⟨rfl, hor⟩
    cases e' with
    | nil => exact h1 rfl
    | cons d e'' =>
      have hd : d ≠ '/' := hns d (by simp)
      rcases hor with habs | hh
      · simp at habs
      · simp at hh; exact hd hh
  have hcond3 : ¬(c = '.' ∧ (e' ++ rest).head? = some '.' ∧
      ((e' ++ rest).tail = [] ∨ (e' ++ rest).tail.head? = some '/')) := by
    rintro ⟨rfl, hh, hor⟩
    cases e' with
    | nil =>
      rcases hrest with rfl | ⟨rs, rfl⟩
      · simp at hh
      · simp at hh
    | cons d e'' =>
      have hd : d = '.' := by simpa using hh
      subst hd
      cases e'' with
      | nil => exact h2 rfl
      | cons d2 e3 =>
        have hd2 : d2 ≠ '/' := hns d2 (by simp)
        rcases hor with habs | hh2
        · simp at habs
        · simp at hh2; exact hd2 hh2
  have htake : (c :: e' ++ rest).takeWhile (fun x => decide (x ≠ '/')) = c :: e' := by
    have hpos : ∀ a ∈ c :: e', (fun x => decide (x ≠ '/')) a = true := by
      intro a ha
      simpa using hns a ha
    rw [show c :: e' ++ rest = (c :: e') ++ rest from rfl,
      List.takeWhile_append_of_pos hpos]
    rcases hrest with rfl | ⟨rs, rfl⟩
    · simp
    · simp [List.takeWhile]
  have hdrop : (c :: e' ++ rest).dropWhile (fun x => decide (x ≠ '/')) = rest := by
    have hpos : ∀ a ∈ c :: e', (fun x => decide (x ≠ '/')) a = true := by
      intro a ha
      simpa using hns a ha
    rw [show c :: e' ++ rest = (c :: e') ++ rest from rfl,
      List.dropWhile_append_of_pos hpos]
    rcases hrest with rfl | ⟨rs, rfl⟩
    · simp
    · simp [List.dropWhile]
  simp only [List.cons_append, cleanLoop, List.append_eq, if_neg hc, if_neg hcond2,
    if_neg hcond3]
  rw [← List.cons_append, htake, hdrop]

/-- Claim C1: for every string, the six canonical lowercase names (matched
case-insensitively) parse to their levels and every other string parses to
info, with no error surfaced (parseLevel is total). -/
theorem parseLevel_cases (s : String) :
    (strToLower s = "debug" → parseLevel s = ZapLevel.debug) ∧
    (strToLower s = "info" → parseLevel s = ZapLevel.info) ∧
    (strToLower s = "warn" → parseLevel s = ZapLevel.warn) ∧
    (strToLower s = "error" → parseLevel s = ZapLevel.error) ∧
    (strToLower s = "panic" → parseLevel s = ZapLevel.panic) ∧
    (strToLower s = "fatal" → parseLevel s = ZapLevel.fatal) ∧
    (strToLower s ∉ (["debug", "info", "warn", "error", "panic", "fatal"] : List String) →
      parseLevel s = ZapLevel.info) := by
  refine ⟨?_, ?_, ?_, ?_, ?_, ?_, ?_⟩ <;> intro h
  case _ => rw [parseLevel]; rw [h]; decide
  case _ => rw [parseLevel]; rw [h]; decide
  case _ => rw [parseLevel]; rw [h]; decide
  case _ => rw [parseLevel]; rw [h]; decide
  case _ => rw [parseLevel]; rw [h]; decide
  case _ => rw [parseLevel]; rw [h]; decide
  case _ =>
    simp only [List.mem_cons, List.not_mem_nil, or_false, not_or] at h
    obtain ⟨h1, h2, h3, h4, h5, h6⟩ := h
    simp [parseLevel, DebugLevel, InfoLevel, WarnLevel, ErrorLevel, PanicLevel, FatalLevel,
      h1, h2, h3, h4, h5, h6]

/-- Witness for C1 at concrete inputs "WARN" and "Bogus". -/
theorem parseLevel_cases_witness :
    parseLevel "WARN" = ZapLevel.warn ∧ parseLevel "Bogus" = ZapLevel.info :=
  ⟨(parseLevel_cases "WARN").2.2.1 (by decide),
   (parseLevel_cases "Bogus").2.2.2.2.2.2 (by decide)⟩

/-- Claim C2: configuration defaulting replaces every zero-valued field with
its documented default, merges rotation sub-fields independently through the
shared cell (kept when positive, defaulted when non-positive), and is total
(no input errors). -/
theorem fillDefaultConfig_spec (config : Config) (st : ProcState) :
    ((fillDefaultConfig config st).1.Level =
      if config.Level = "" then "info" else config.Level) ∧
    ((fillDefaultConfig config st).1.Format =
      if config.Format = "" then "console" else config.Format) ∧
    ((fillDefaultConfig config st).1.Filename =
      if config.Filename = "" then "./logs/app.log" else config.Filename) ∧
    ((fillDefaultConfig config st).1.Name =
      if config.Name = "" then "default" else config.Name) ∧
    ((fillDefaultConfig config st).1.Environment =
      if config.Environment = "" then st.currentEnv else config.Environment) ∧
    (config.FileRotation = none →
      (fillDefaultConfig config st).1.FileRotation = some st.rotNext ∧
      (fillDefaultConfig config st).2.rotCells st.rotNext = defaultRotation) ∧
    (∀ addr, config.FileRotation = some addr → addr < st.rotNext →
      (fillDefaultConfig config st).1.FileRotation = some addr ∧
      (fillDefaultConfig config st).2.rotCells addr =
        { MaxSize := if (st.rotCells addr).MaxSize ≤ 0 then 100 else (st.rotCells addr).MaxSize
          MaxAge := if (st.rotCells addr).MaxAge ≤ 0 then 7 else (st.rotCells addr).MaxAge
          MaxBackups :=
            if (st.rotCells addr).MaxBackups ≤ 0 then 10 else (st.rotCells addr).MaxBackups
          Compress := (st.rotCells addr).Compress }) := by
  refine ⟨?_, ?_, ?_, ?_, ?_, ?_, ?_⟩
  case _ => rw [fill_fst]; rfl
  case _ => rw [fill_fst]; rfl
  case _ => rw [fill_fst]
  case _ => rw [fill_fst]
  case _ => rw [fill_fst]
  case _ =>
    intro h
    refine ⟨by rw [fill_fst]; simp [h], ?_⟩
    rw [fill_snd_none config st h]
    simp [ProcState.allocRot]
  case _ =>
    intro addr h hv
    refine ⟨by rw [fill_fst]; simp [h], ?_⟩
    exact fill_rotCells_some config st addr h hv

/-- Witness for C2 at a concrete partially-filled configuration. -/
theorem fillDefaultConfig_spec_witness :
    (fillDefaultConfig cfgRotPartial stRotPartial).1.Level = "info" ∧
    (fillDefaultConfig cfgRotPartial stRotPartial).1.Format = "json" ∧
    (fillDefaultConfig cfgRotPartial stRotPartial).2.rotCells 0 =
      { MaxSize := 5, MaxAge := 7, MaxBackups := 10, Compress := true } := by
  have h := fillDefaultConfig_spec cfgRotPartial stRotPartial
  have h7 := (h.2.2.2.2.2.2 0 rfl (by decide)).2
  refine ⟨?_, ?_, ?_⟩
  · simpa [cfgRotPartial] using h.1
  · simpa [cfgRotPartial] using h.2.1
  · rw [h7]; decide

/-- Claim C4: With-derived children share the parent's atomic level cell
(not a copy), so SetLevel through parent or child is observed by both. -/
theorem with_shares_atomicLevel (l : Logger) (fields : List Field) (level : String)
    (st : ProcState) :
    (l.With fields).atomicLevel = l.atomicLevel ∧
    effectiveLevel (l.With fields) (l.SetLevel level st) = parseLevel level ∧
    effectiveLevel l ((l.With fields).SetLevel level st) = parseLevel level ∧
    effectiveLevel l (l.SetLevel level st) = parseLevel level ∧
    effectiveLevel (l.With fields) ((l.With fields).SetLevel level st) = parseLevel level := by
  refine ⟨rfl, ?_, ?_, ?_, ?_⟩ <;>
    simp [Logger.With, Logger.SetLevel, effectiveLevel, ProcState.setLvl]

/-- Claim C5: before Init, every package-level convenience function is a
no-op or returns an empty/nil result: no record is emitted, no abort is
raised, Sync returns nil, SetDefaultLevel leaves the state unchanged, and
With/WithFields return nil. -/
theorem uninitialized_noop (st : ProcState) (h : st.defaultLogger = none) :
    (∀ msg fields, Debug st msg fields = [] ∧ Info st msg fields = [] ∧
      Warn st msg fields = [] ∧ Error st msg fields = [] ∧
      Panic st msg fields = ([], false) ∧ Fatal st msg fields = ([], false)) ∧
    (∀ fmtF format args,
      Debugf st fmtF format args = [] ∧ Infof st fmtF format args = [] ∧
      Warnf st fmtF format args = [] ∧ Errorf st fmtF format args = [] ∧
      Panicf st fmtF format args = ([], false) ∧ Fatalf st fmtF format args = ([], false)) ∧
    (∀ level, SetDefaultLevel st level = st) ∧
    (∀ fields, With st fields = none) ∧
    (∀ m, WithFields st m = none) ∧
    (∀ engineErr, Sync st engineErr = none) := by
  refine ⟨fun msg fields => ?_, fun fmtF format args => ?_, fun level => ?_,
    fun fields => ?_, fun m => ?_, fun engineErr => ?_⟩ <;>
    simp [Debug, Info, Warn, Error, Panic, Fatal, Debugf, Infof, Warnf, Errorf,
      Panicf, Fatalf, SetDefaultLevel, With, WithFields, Sync, h]

theorem newLogger_rotCells (config : Config) (st : ProcState) (fs : String → Bool)
    (now : String) (pid : Nat) :
    ((NewLogger config st fs now pid).2).rotCells =
      (fillDefaultConfig config st).2.rotCells := by
  simp only [NewLogger]
  split
  · simp [ProcState.allocLvl]
  · simp only [registerLogger]
    split <;> simp [ProcState.allocLvl]

theorem newLogger_defaultLogger (config : Config) (st : ProcState) (fs : String → Bool)
    (now : String) (pid : Nat) :
    ((NewLogger config st fs now pid).2).defaultLogger = st.defaultLogger := by
  have hfill : ((fillDefaultConfig config st).2).defaultLogger = st.defaultLogger := by
    cases h : config.FileRotation <;>
      simp [fillDefaultConfig, DefaultConfig, h, ProcState.allocRot, ProcState.setRot]
  simp only [NewLogger]
  split
  · simpa [ProcState.allocLvl] using hfill
  · simp only [registerLogger]
    split <;> simpa [ProcState.allocLvl] using hfill

/-- Claim C6: NewLogger errors exactly when creating the parent directory of
the resolved log path fails, and returns an initialized logger (nil error)
on every other input; being a total function it never panics. -/
theorem newLogger_error_iff (config : Config) (st : ProcState) (fs : String → Bool)
    (now : String) (pid : Nat) :
    ((∃ e, (NewLogger config st fs now pid).1 = Except.error e) ↔
      fs (filepathDir (getLogFilename (fillDefaultConfig config st).1 now pid)) = false) ∧
    ((∃ l, (NewLogger config st fs now pid).1 = Except.ok l) ↔
      fs (filepathDir (getLogFilename (fillDefaultConfig config st).1 now pid)) = true) := by
  cases hfs : fs (filepathDir (getLogFilename (fillDefaultConfig config st).1 now pid)) <;>
    simp [NewLogger, createLogWriter, hfs]

/-- Claim C9: when the caller's configuration carries a rotation pointer with
some non-positive numeric field, NewLogger mutates the caller's own rotation
cell in place: afterwards the pointed-to cell holds the merged (defaulted)
values, not a private copy. -/
theorem newLogger_mutates_rotation (config : Config) (st : ProcState) (fs : String → Bool)
    (now : String) (pid : Nat) (addr : Nat)
    (hp : config.FileRotation = some addr) (hv : addr < st.rotNext) :
    ((NewLogger config st fs now pid).2).rotCells addr =
      { MaxSize := if (st.rotCells addr).MaxSize ≤ 0 then 100 else (st.rotCells addr).MaxSize
        MaxAge := if (st.rotCells addr).MaxAge ≤ 0 then 7 else (st.rotCells addr).MaxAge
        MaxBackups :=
          if (st.rotCells addr).MaxBackups ≤ 0 then 10 else (st.rotCells addr).MaxBackups
        Compress := (st.rotCells addr).Compress } := by
  rw [newLogger_rotCells]
  exact fill_rotCells_some config st addr hp hv

/-- Witness for C9: the caller's cell 0 (MaxSize=-1, MaxBackups=0, MaxAge=3)
is mutated through the pointer to (100, 10, 3). -/
theorem newLogger_mutates_rotation_witness :
    ((NewLogger cfgRotNeg stRotNeg fsAllOk "t" 1).2).rotCells 0 =
      { MaxSize := 100, MaxAge := 3, MaxBackups := 10, Compress := true } := by
  have h := newLogger_mutates_rotation cfgRotNeg stRotNeg fsAllOk "t" 1 0 rfl (by decide)
  rw [h]; decide

/-- Claim C3: with console format and color enabled, the file destination's
encoder is forced to the non-colored capital level encoding while the
console destination (when mirroring is on) keeps the colored encoding. -/
theorem newLogger_color_split (config : Config) (st : ProcState) (fs : String → Bool)
    (now : String) (pid : Nat) (l : Logger) (st' : ProcState)
    (hfmt : config.Format = "console") (hcol : config.EnableColor = true)
    (hok : NewLogger config st fs now pid = (Except.ok l, st')) :
    l.fileEncoder.levelEncoding = LevelEncoding.capital ∧
    (config.ConsoleOutput = true →
      ∃ e, l.consoleEncoder = some e ∧ e.levelEncoding = LevelEncoding.capitalColor) := by
  have hcf : (fillDefaultConfig config st).1.Format = "console" := by
    rw [fill_fst]
    simp [hfmt, FormatConsole]
  have hcc : (fillDefaultConfig config st).1.EnableColor = true := by
    rw [fill_fst]; exact hcol
  have hco : (fillDefaultConfig config st).1.ConsoleOutput = config.ConsoleOutput := by
    rw [fill_fst]
  simp only [NewLogger] at hok
  split at hok
  · simp at hok
  · simp only [Prod.mk.injEq, Except.ok.injEq] at hok
    obtain ⟨hl, _⟩ := hok
    subst hl
    constructor
    · simp [createEncoder, createEncoderConfig, Encoder.levelEncoding, hcf,
        FormatConsole, FormatJSON]
    · intro hout
      refine ⟨Encoder.consoleEnc
        { createEncoderConfig (fillDefaultConfig config st).1 with
          timeFormat := "2006-01-02 15:04:05.000" }, ?_, ?_⟩
      · simp [createEncoder, createEncoderConfig, hcf, hcc, hco, hout,
          FormatConsole, FormatJSON]
      · simp [createEncoderConfig, Encoder.levelEncoding, hcf, hcc, FormatConsole]

/-- Witness for C3 at a concrete console+color+mirroring configuration. -/
theorem newLogger_color_split_witness :
    c3Logger.fileEncoder.levelEncoding = LevelEncoding.capital ∧
    ∃ e, c3Logger.consoleEncoder = some e ∧ e.levelEncoding = LevelEncoding.capitalColor := by
  have h := newLogger_color_split cfgConsoleColor initState fsAllOk "t" 1 c3Logger c3St
    rfl rfl rfl
  exact ⟨h.1, h.2 rfl⟩

theorem strext (a b : String) (h : a.data = b.data) : a = b := by
  cases a
  cases b
  exact congrArg String.mk h

theorem logs_data (n : String) :
    ("logs/" ++ n ++ ".log").data
      = 'l' :: 'o' :: 'g' :: 's' :: '/' :: (n.data ++ ['.', 'l', 'o', 'g']) := by
  rw [strdata_append, strdata_append]
  simp

theorem cleanLoop_elem_start (fuel : Nat) (e rest : List Char) (dd : Nat)
    (he : e ≠ []) (hns : ∀ c ∈ e, c ≠ '/')
    (h1 : e ≠ ['.']) (h2 : e ≠ ['.', '.'])
    (hrest : rest = [] ∨ ∃ rs, rest = '/' :: rs) :
    cleanLoop false (fuel + 1) (e ++ rest) [] dd = cleanLoop false fuel rest e dd := by
  rw [cleanLoop_elem false fuel e rest [] dd he hns h1 h2 hrest]
  simp

theorem cleanLoop_elem_cont (fuel : Nat) (e rest out : List Char) (dd : Nat)
    (ho : out ≠ []) (he : e ≠ []) (hns : ∀ c ∈ e, c ≠ '/')
    (h1 : e ≠ ['.']) (h2 : e ≠ ['.', '.'])
    (hrest : rest = [] ∨ ∃ rs, rest = '/' :: rs) :
    cleanLoop false (fuel + 1) (e ++ rest) out dd =
      cleanLoop false fuel rest (out ++ '/' :: e) dd := by
  rw [cleanLoop_elem false fuel e rest out dd he hns h1 h2 hrest]
  have hlen : out.length ≠ 0 := by simpa using ho
  rw [if_pos (Or.inr ⟨rfl, hlen⟩)]
  simp

theorem cleanRun (n : String) (h : ('/' : Char) ∉ n.data) :
    cleanLoop false (n.data.length + 11)
      ('.' :: '/' :: 'l' :: 'o' :: 'g' :: 's' :: '/' :: (n.data ++ ['.', 'l', 'o', 'g'])) [] 0
      = 'l' :: 'o' :: 'g' :: 's' :: '/' :: (n.data ++ ['.', 'l', 'o', 'g']) := by
  have hns2 : ∀ c ∈ n.data ++ ['.', 'l', 'o', 'g'], c ≠ '/' := by
    intro c hc
    rcases List.mem_append.mp hc with hcn | hct
    · intro habs; subst habs; exact h hcn
    · intro habs; subst habs; simp at hct
  have he2 : n.data ++ ['.', 'l', 'o', 'g'] ≠ [] := by simp
  have h12 : n.data ++ ['.', 'l', 'o', 'g'] ≠ ['.'] := by
    intro habs
    have hl := congrArg List.length habs
    simp at hl
  have h22 : n.data ++ ['.', 'l', 'o', 'g'] ≠ ['.', '.'] := by
    intro habs
    have hl := congrArg List.length habs
    simp at hl
  rw [show n.data.length + 11 = (n.data.length + 10) + 1 from by omega, cleanLoop_dotslash]
  rw [show n.data.length + 10 = (n.data.length + 9) + 1 from by omega, cleanLoop_slash]
  rw [show n.data.length + 9 = (n.data.length + 8) + 1 from by omega]
  rw [show ('l' :: 'o' :: 'g' :: 's' :: '/' :: (n.data ++ ['.', 'l', 'o', 'g']) : List Char)
      = ['l', 'o', 'g', 's'] ++ ('/' :: (n.data ++ ['.', 'l', 'o', 'g'])) from rfl]
  rw [cleanLoop_elem_start (n.data.length + 8) ['l', 'o', 'g', 's'] _ 0
    (by decide) (by decide) (by decide) (by decide)
    (Or.inr ⟨n.data ++ ['.', 'l', 'o', 'g'], rfl⟩)]
  rw [show n.data.length + 8 = (n.data.length + 7) + 1 from by omega, cleanLoop_slash]
  rw [show n.data.length + 7 = (n.data.length + 6) + 1 from by omega]
  rw [show (n.data ++ ['.', 'l', 'o', 'g'] : List Char)
      = (n.data ++ ['.', 'l', 'o', 'g']) ++ [] from by simp]
  rw [cleanLoop_elem_cont (n.data.length + 6) (n.data ++ ['.', 'l', 'o', 'g']) []
    ['l', 'o', 'g', 's'] 0 (by decide) he2 hns2 h12 h22 (Or.inl rfl)]
  rw [cleanLoop_nil]
  simp

theorem join_logs_noslash (n : String) (h : ('/' : Char) ∉ n.data) :
    filepathJoin "./logs" (n ++ ".log") = "logs/" ++ n ++ ".log" := by
  have hdata : ("./logs" ++ "/" ++ (n ++ ".log")).data
      = '.' :: '/' :: 'l' :: 'o' :: 'g' :: 's' :: '/' :: (n.data ++ ['.', 'l', 'o', 'g']) := by
    rw [strdata_append, strdata_append, strdata_append]
    simp
  have hne2 : ("./logs" ++ "/" ++ (n ++ ".log")) ≠ "" := by
    intro habs
    have h2 := congrArg String.data habs
    rw [hdata] at h2
    simp at h2
  have hlen : ("./logs" ++ "/" ++ (n ++ ".log")).data.length = n.data.length + 11 := by
    rw [hdata]
    simp only [List.length_cons, List.length_append, List.length_cons, List.length_nil]
  have hhead : ¬(("./logs" ++ "/" ++ (n ++ ".log")).data.head? = some '/') := by
    rw [hdata]
    simp
  have hrun := cleanRun n h
  simp only [filepathJoin]
  rw [if_neg (by decide : ¬("./logs" : String) = "")]
  simp only [pathClean]
  rw [if_neg hne2, if_neg hhead, if_neg hhead, decide_eq_false hhead, hlen, hdata, hrun]
  rw [if_neg (by simp : ¬('l' :: 'o' :: 'g' :: 's' :: '/' :: (n.data ++ ['.', 'l', 'o', 'g'])
      = []))]
  apply strext
  rw [logs_data]

theorem fill_loggers (config : Config) (st : ProcState) :
    ((fillDefaultConfig config st).2).loggers = st.loggers := by
  cases h : config.FileRotation <;>
    simp [fillDefaultConfig, DefaultConfig, h, ProcState.allocRot, ProcState.setRot]

theorem modulePrep_name (name : String) (config : Option Config) (st : ProcState) :
    (modulePrep name config st).1.Name = name := by
  cases config <;> simp only [modulePrep] <;> split
  · rfl
  · split <;> rfl
  · rfl
  · split <;> rfl

theorem modulePrep_defaultLogger (name : String) (config : Option Config) (st : ProcState) :
    (modulePrep name config st).2.defaultLogger = st.defaultLogger := by
  cases config <;> simp only [modulePrep] <;> split
  · rfl
  · split <;> rfl
  · rfl
  · split <;> rfl

theorem modulePrep_loggers (name : String) (config : Option Config) (st : ProcState) :
    (modulePrep name config st).2.loggers = st.loggers := by
  cases config <;> simp only [modulePrep] <;> split
  · rfl
  · split <;> rfl
  · rfl
  · split <;> rfl

theorem modulePrep_filename (name : String) (config : Option Config) (st : ProcState)
    (hcfg : config = none ∨
      ∃ c, config = some c ∧ (c.Filename = "" ∨ c.Filename = "./logs/app.log")) :
    (modulePrep name config st).1.Filename = filepathJoin "./logs" (name ++ ".log") := by
  rcases hcfg with rfl | ⟨c, rfl, hc⟩
  · simp [modulePrep, DefaultConfig]
  · rcases hc with hc | hc <;> simp [modulePrep, DefaultConfig, hc]

theorem newLogger_isOk (config : Config) (st : ProcState) (fs : String → Bool)
    (now : String) (pid : Nat) (hfs : ∀ d, fs d = true) :
    ∃ l', (NewLogger config st fs now pid).1 = Except.ok l' := by
  simp only [NewLogger]
  split
  case _ e heq =>
    exfalso
    revert heq
    simp [createLogWriter, hfs]
  case _ r heq =>
    exact ⟨_, rfl⟩

theorem newLogger_ok (config : Config) (st : ProcState) (fs : String → Bool)
    (now : String) (pid : Nat) (l : Logger) (st₂ : ProcState)
    (hok : NewLogger config st fs now pid = (Except.ok l, st₂)) :
    l.config = (fillDefaultConfig config st).1 ∧
    st₂.loggers =
      if (fillDefaultConfig config st).1.Name ≠ "" ∧
          (fillDefaultConfig config st).1.Name ≠ "default"
      then mapInsert st.loggers ((fillDefaultConfig config st).1.Name) l
      else st.loggers := by
  simp only [NewLogger] at hok
  split at hok
  · simp at hok
  · simp only [Prod.mk.injEq, Except.ok.injEq] at hok
    obtain ⟨hl, hst⟩ := hok
    constructor
    · rw [← hl]
    · rw [← hst, hl]
      simp only [registerLogger]
      split <;> simp [ProcState.allocLvl, fill_loggers]

/-- Claim C7: after a first Module(x) call that successfully constructed and
registered a logger, x is in the registry bound to that logger, and any
second Module(x) call returns the registered logger without constructing a
new one (the state is unchanged). -/
theorem module_idempotent (x : String) (st : ProcState) (fs : String → Bool)
    (now : String) (pid : Nat) (l : Logger) (st' : ProcState)
    (hx1 : x ≠ "") (hx2 : x ≠ "default")
    (hmiss : mapLookup st.loggers x = none)
    (hfs : ∀ d, fs d = true)
    (hfirst : Module x none st fs now pid = (some l, st')) :
    mapLookup st'.loggers x = some l ∧
    ∀ cfg fs2 now2 pid2, Module x cfg st' fs2 now2 pid2 = (some l, st') := by
  have hreg : mapLookup st'.loggers x = some l := by
    simp only [Module, hmiss] at hfirst
    split at hfirst
    case _ logger st2 heq =>
      simp only [Prod.mk.injEq, Option.some.injEq] at hfirst
      obtain ⟨hl, hst⟩ := hfirst
      have hname : (fillDefaultConfig (modulePrep x none st).1 (modulePrep x none st).2).1.Name
          = x := by
        rw [fill_fst]
        simp [modulePrep_name, hx1]
      have hok := newLogger_ok (modulePrep x none st).1 (modulePrep x none st).2 fs now pid
        logger st2 heq
      rw [← hst, hok.2, hname, if_pos ⟨hx1, hx2⟩, hl]
      exact mapLookup_mapInsert_self _ x l
    case _ st2 heq =>
      obtain ⟨l', hok'⟩ := newLogger_isOk (modulePrep x none st).1 (modulePrep x none st).2
        fs now pid hfs
      rw [heq] at hok'
      simp at hok'
  refine ⟨hreg, fun cfg fs2 now2 pid2 => ?_⟩
  simp [Module, hreg]

/-- Witness for C7 at the concrete module name "auth". -/
theorem module_idempotent_witness :
    mapLookup c7St.loggers "auth" = some c7Logger ∧
    Module "auth" none c7St fsAllFail "u" 2 = (some c7Logger, c7St) := by
  have h := module_idempotent "auth" initState fsAllOk "t" 1 c7Logger c7St
    (by decide) (by decide) rfl (fun d => rfl) rfl
  exact ⟨h.1, h.2 none fsAllFail "u" 2⟩

/-- Claim C8: when the lookup misses and logger construction inside Module
fails, Module returns the current default logger — a real logger when Init
has run, nil (`none`) when it has not — and never propagates the error. -/
theorem module_fallback (name : String) (config : Option Config) (st : ProcState)
    (fs : String → Bool) (now : String) (pid : Nat) (e : String)
    (hmiss : mapLookup st.loggers name = none)
    (hfail : (NewLogger (modulePrep name config st).1 (modulePrep name config st).2
      fs now pid).1 = Except.error e) :
    (Module name config st fs now pid).1 = st.defaultLogger := by
  simp only [Module, hmiss]
  split
  case _ logger st2 heq =>
    rw [heq] at hfail
    simp at hfail
  case _ st2 heq =>
    have h1 := newLogger_defaultLogger (modulePrep name config st).1
      (modulePrep name config st).2 fs now pid
    rw [heq] at h1
    simpa [modulePrep_defaultLogger] using h1

/-- Witness for C8: with a failing filesystem, Module falls back to the
default logger when one exists and to nil when none does. -/
theorem module_fallback_witness :
    (Module "m" none stWithDefault fsAllFail "t" 1).1 = some dummyLogger ∧
    (Module "m" none initState fsAllFail "t" 1).1 = none := by
  refine ⟨?_, ?_⟩
  · exact module_fallback "m" none stWithDefault fsAllFail "t" 1 "创建日志目录失败" rfl rfl
  · exact module_fallback "m" none initState fsAllFail "t" 1 "创建日志目录失败" rfl rfl

/-- Counterexample to C10 as stated: the module logger constructed for "web"
carries filename "logs/web.log" (filepath.Join cleans away the "./" prefix),
not "./logs/web.log". -/
theorem module_filename_cex :
    ((Module "web" none initState fsAllOk "t" 1).1.map fun l => l.config.Filename)
        = some "logs/web.log" ∧
    ¬(((Module "web" none initState fsAllOk "t" 1).1.map fun l => l.config.Filename)
        = some "./logs/web.log") :=
  ⟨by decide, by decide⟩

/-- Claim C10 (amended): when Module(name, cfg) constructs a new logger and
cfg.Filename is empty or exactly the package default path "./logs/app.log",
the constructed logger's filename is filepath.Join("./logs", name+".log"),
which for names without a path separator is "logs/<name>.log" — the "./"
prefix is removed by path cleaning. -/
theorem module_filename (name : String) (config : Option Config) (st : ProcState)
    (fs : String → Bool) (now : String) (pid : Nat) (l : Logger) (st' : ProcState)
    (hns : ('/' : Char) ∉ name.data)
    (hmiss : mapLookup st.loggers name = none)
    (hcfg : config = none ∨
      ∃ c, config = some c ∧ (c.Filename = "" ∨ c.Filename = "./logs/app.log"))
    (hfs : ∀ d, fs d = true)
    (hres : Module name config st fs now pid = (some l, st')) :
    l.config.Filename = "logs/" ++ name ++ ".log" := by
  have hprep := modulePrep_filename name config st hcfg
  have hjoin := join_logs_noslash name hns
  have hnempty : ("logs/" ++ name ++ ".log") ≠ "" := by
    intro habs
    have h2 := congrArg String.data habs
    rw [logs_data] at h2
    simp at h2
  simp only [Module, hmiss] at hres
  split at hres
  case _ logger st2 heq =>
    simp only [Prod.mk.injEq, Option.some.injEq] at hres
    obtain ⟨hl, _⟩ := hres
    have hok := newLogger_ok (modulePrep name config st).1 (modulePrep name config st).2
      fs now pid logger st2 heq
    rw [← hl, hok.1, fill_fst]
    simp only [hprep, hjoin]
    rw [if_neg hnempty]
  case _ st2 heq =>
    obtain ⟨l', hok'⟩ := newLogger_isOk (modulePrep name config st).1
      (modulePrep name config st).2 fs now pid hfs
    rw [heq] at hok'
    simp at hok'

/-- Witness for the amended C10: Module "db" with an explicit configuration
requesting "./logs/app.log" yields filename "logs/db.log". -/
theorem module_filename_witness :
    c10Logger.config.Filename = "logs/" ++ "db" ++ ".log" := by
  exact module_filename "db" (some cfgModDb) initState fsAllOk "t" 1 c10Logger c10St
    (by decide) rfl (Or.inr ⟨cfgModDb, rfl, Or.inr rfl⟩) (fun d => rfl) rfl

/-- Witness for C5 at the process start state. -/
theorem uninitialized_noop_witness :
    Debug initState "m" [] = [] ∧
    Panic initState "m" [] = ([], false) ∧
    SetDefaultLevel initState "debug" = initState ∧
    Sync initState (fun _ => some "io") = none := by
  have h := uninitialized_noop initState rfl
  exact ⟨(h.1 "m" []).1, (h.1 "m" []).2.2.2.2.1, h.2.2.1 "debug",
    h.2.2.2.2.2 (fun _ => some "io")⟩

end Clog
